import Mathlib

/-!
Verification of the request-handling and model-fallback layer of the
Ai_Humanizer repository: the rate limiter, credential resolution,
primary/secondary model invocation with quota-aware fallback, the error
classification, and the verify probe — embedded shallowly from the
TypeScript source (the serverless handlers in `api/` and the Express
server), with handlers modelled as pure functions over an explicit
per-client rate record, a generation-outcome oracle, and an instrumented
result recording which upstream calls were issued.
-/

/-- The value of the `x-forwarded-for` header as Node delivers it:
absent (`undefined`), a plain string, or an array of strings. -/
inductive HeaderVal where
  | absent : HeaderVal
  | str (s : String) : HeaderVal
  | arr (l : List String) : HeaderVal
deriving DecidableEq, Repr

/-- The key under which a handler stores rate-limit state. The serverless
rewrite handler can use a raw header array as the key (it skips the
first-element extraction), so the key is not always a string. -/
inductive ClientKey where
  | strKey (s : String) : ClientKey
  | arrKey (l : List String) : ClientKey
deriving DecidableEq, Repr

/-- JavaScript truthiness of a possibly-undefined string: `undefined` and
`""` are falsy, every other string is truthy. -/
def jsTruthy : Option String → Bool
  | some s => !s.isEmpty
  | none => false

/-- JavaScript `a || b` on possibly-undefined strings. -/
def jsOr (a b : Option String) : Option String :=
  if jsTruthy a then a else b

/-- `(Array.isArray(f) ? f[0] : f)`: the header collapsed to a single
possibly-undefined string (an empty array yields `undefined`). -/
def firstVal : HeaderVal → Option String
  | .absent => none
  | .str s => some s
  | .arr l => l.head?

/-- Client id of the serverless rewrite handler (api/rewrite.ts):
`req.headers['x-forwarded-for'] || 'unknown'` — no first-element
extraction (an array header is used raw, arrays are truthy) and no
socket-address fallback. -/
def serverlessRewriteClientId : HeaderVal → ClientKey
  | .absent => .strKey "unknown"
  | .str s => if s.isEmpty then .strKey "unknown" else .strKey s
  | .arr l => .arrKey l

/-- Client id of the serverless verify handler:
`(Array.isArray(forwarded) ? forwarded[0] : forwarded) || 'unknown'` —
first element of an array header, but no socket-address fallback. -/
def serverlessVerifyClientId (hv : HeaderVal) : String :=
  match firstVal hv with
  | some s => if s.isEmpty then "unknown" else s
  | none => "unknown"

/-- Client id of the Express rate-limiter middleware:
`(Array.isArray(forwarded) ? forwarded[0] : forwarded) || req.socket.remoteAddress || 'unknown'`. -/
def expressClientId (hv : HeaderVal) (sock : Option String) : String :=
  match jsOr (firstVal hv) sock with
  | some s => if s.isEmpty then "unknown" else s
  | none => "unknown"

/-- The client-identifier derivation as the specification words it, for
comparison with the derivations taken from the source: the first value of
the forwarded header if present, otherwise the direct peer (socket)
address, otherwise the literal \x22unknown\x22. -/
def claimedClientId (hv : HeaderVal) (sock : Option String) : String :=
  match hv with
  | .absent => sock.getD "unknown"
  | .str s => s
  | .arr l =>
    match l with
    | [] => sock.getD "unknown"
    | h :: _ => h

/-- `WINDOW_MS = 60 * 1000` from the source. -/
def WINDOW_MS : Int := 60 * 1000

/-- `MAX_REQUESTS = 20` from the source. -/
def MAX_REQUESTS : Nat := 20

/-- Per-client rate-limit record `{ count, lastReset }`. -/
structure RateRecord where
  count : Nat
  lastReset : Int
deriving DecidableEq, Repr

/-- `let record = rateLimit.get(ip); if (!record || (now - record.lastReset > WINDOW_MS)) record = { count: 0, lastReset: now }`. -/
def freshOrReset (stored : Option RateRecord) (now : Int) : RateRecord :=
  match stored with
  | none => { count := 0, lastReset := now }
  | some r => if now - r.lastReset > WINDOW_MS then { count := 0, lastReset := now } else r

/-- One pass through the rate-limiting logic shared by every handler:
reset or create the record, reject without storing when
`record.count >= MAX_REQUESTS`, otherwise increment and store. Returns
(allowed?, the record stored under the client's key afterwards). -/
def rateStep (now : Int) (stored : Option RateRecord) : Bool × Option RateRecord :=
  let record := freshOrReset stored now
  if record.count ≥ MAX_REQUESTS then (false, stored)
  else (true, some { count := record.count + 1, lastReset := record.lastReset })

/-- Iterate `rateStep` over a list of request times, collecting the
admission flags and the final stored record. -/
def runRate : List Int → Option RateRecord → List Bool × Option RateRecord
  | [], stored => ([], stored)
  | t :: ts, stored =>
    let p := rateStep t stored
    let q := runRate ts p.2
    (p.1 :: q.1, q.2)

/-- The shape of an error thrown by the upstream SDK, as the handler's
classification code reads it: a possibly-absent numeric `status`, a
possibly-absent `message`, a possibly-absent nested `error.code` and
`error.status`, and the result of `JSON.stringify` on the whole object. -/
structure UpstreamError where
  status : Option Nat
  message : Option String
  errCode : Option Nat
  errStatus : Option String
  serialized : String
deriving DecidableEq, Repr

/-- Does `pat` occur as a contiguous run inside `s`? -/
def occursIn (pat : List Char) : List Char → Bool
  | [] => pat.isEmpty
  | c :: t => pat.isPrefixOf (c :: t) || occursIn pat t

/-- JavaScript `s.includes(pat)`. -/
def strIncludes (s pat : String) : Bool :=
  occursIn pat.toList s.toList

/-- The quota-error classification from the rewrite handler:
`proError.status === 429 || proError.message?.includes('429') ||
proError.message?.includes('RESOURCE_EXHAUSTED') || proError.error?.code === 429 ||
proError.error?.status === 'RESOURCE_EXHAUSTED' ||
JSON.stringify(proError).includes('RESOURCE_EXHAUSTED')`. -/
def isQuotaError (e : UpstreamError) : Bool :=
  e.status == some 429 ||
  (match e.message with
   | some m => strIncludes m "429" || strIncludes m "RESOURCE_EXHAUSTED"
   | none => false) ||
  e.errCode == some 429 ||
  e.errStatus == some "RESOURCE_EXHAUSTED" ||
  strIncludes e.serialized "RESOURCE_EXHAUSTED"

/-- Outcome of one upstream generation call: the resolved text, or a
thrown error. -/
inductive GenOutcome where
  | success (text : String) : GenOutcome
  | failure (e : UpstreamError) : GenOutcome
deriving DecidableEq, Repr

/-- A record of one upstream call as the handler issues it: the model id,
the prompt text forwarded from the request body, and whether a system
instruction was attached. -/
structure GenCall where
  model : String
  prompt : Option String
  withSystemInstruction : Bool
deriving DecidableEq, Repr

/-- Oracle for the two generation calls a rewrite may make: what the
primary (pro) attempt yields, and what the secondary (flash) attempt
would yield if issued. -/
structure GenEnv where
  proResult : GenOutcome
  flashResult : GenOutcome
deriving DecidableEq, Repr

def proModel : String := "gemini-3.1-pro-preview"

def flashModel : String := "gemini-3-flash-preview"

/-- The primary rewrite call: pro model, request text, system instruction attached. -/
def proCall (t : Option String) : GenCall :=
  { model := proModel, prompt := t, withSystemInstruction := true }

/-- The fallback rewrite call: flash model, request text, system instruction attached. -/
def flashCall (t : Option String) : GenCall :=
  { model := flashModel, prompt := t, withSystemInstruction := true }

/-- The verify probe call: flash model, fixed prompt `"Hi"`, no system instruction. -/
def verifyCall : GenCall :=
  { model := flashModel, prompt := some "Hi", withSystemInstruction := false }

/-- A JSON response body, as serialized to the client. `invalidBody none`
stands for `{ status: "invalid", error: undefined }`, whose `error` field
JSON serialization drops. -/
inductive RespBody where
  | textBody (t : String) : RespBody
  | errorBody (e : String) : RespBody
  | validBody : RespBody
  | invalidBody (err : Option String) : RespBody
deriving DecidableEq, Repr

/-- Does the serialized body carry an `error` field? -/
def hasErrorField : RespBody → Bool
  | .errorBody _ => true
  | .invalidBody (some _) => true
  | _ => false

/-- Is the body a successful payload (`{ text }` or `{ status: "valid" }`)? -/
def isSuccessPayload : RespBody → Bool
  | .textBody _ => true
  | .validBody => true
  | _ => false

/-- `const status = error.status || 500` (0 is falsy in JavaScript). -/
def errStatusOf (e : UpstreamError) : Nat :=
  match e.status with
  | some s => if s == 0 then 500 else s
  | none => 500

/-- `const message = error.message || "Internal Server Error"`. -/
def errMessageOf (e : UpstreamError) : String :=
  match e.message with
  | some m => if m.isEmpty then "Internal Server Error" else m
  | none => "Internal Server Error"

/-- `const keyToUse = apiKey || process.env.GEMINI_API_KEY`. -/
def resolveKey (apiKey envKey : Option String) : Option String :=
  jsOr apiKey envKey

/-- Strip leading and trailing whitespace, as JavaScript `trim` does. -/
def trimChars (l : List Char) : List Char :=
  ((l.dropWhile Char.isWhitespace).reverse.dropWhile Char.isWhitespace).reverse

/-- Strip leading and trailing whitespace from a string. -/
def trimStr (s : String) : String :=
  String.mk (trimChars s.data)

/-- The credential resolution as the specification words it, for
comparison with `resolveKey`: the request credential trimmed if the
trimmed value is non-empty, else the configured default. -/
def resolveKeySpec (apiKey envKey : Option String) : Option String :=
  match apiKey with
  | some k => if (trimStr k).isEmpty then envKey else some (trimStr k)
  | none => envKey

/-- Status, body, the credential handed to the SDK (none when no call was
made), and the upstream calls issued, for the part of a handler behind
the rate gate. -/
structure CoreResult where
  status : Nat
  body : RespBody
  usedKey : Option String
  calls : List GenCall
deriving DecidableEq, Repr

/-- The rewrite logic behind the gate and method check: resolve the
credential (401 when none), call the pro model; on an error classified as
quota exhaustion call the flash model once and let its outcome stand; any
other error — and a flash-attempt error — reaches the outer catch, which
answers with `error.status || 500` and `error.message || "Internal Server
Error"`. -/
def rewriteCore (text apiKey envKey : Option String) (gen : GenEnv) : CoreResult :=
  let keyToUse := resolveKey apiKey envKey
  if jsTruthy keyToUse then
    match gen.proResult with
    | .success t => { status := 200, body := .textBody t, usedKey := keyToUse, calls := [proCall text] }
    | .failure e =>
      if isQuotaError e then
        match gen.flashResult with
        | .success t =>
          { status := 200, body := .textBody t, usedKey := keyToUse,
            calls := [proCall text, flashCall text] }
        | .failure e2 =>
          { status := errStatusOf e2, body := .errorBody (errMessageOf e2),
            usedKey := keyToUse, calls := [proCall text, flashCall text] }
      else
        { status := errStatusOf e, body := .errorBody (errMessageOf e),
          usedKey := keyToUse, calls := [proCall text] }
  else
    { status := 401,
      body := .errorBody "API Key is missing. Please configure it in Vercel or provide one.",
      usedKey := none, calls := [] }

/-- The verify logic behind any gate and method check: 400 when the
request key is falsy (no server-default fallback), otherwise exactly one
flash-model probe with prompt `"Hi"` and no system instruction; success
answers `200 { status: "valid" }`, any failure answers
`400 { status: "invalid", error: error.message }`. -/
def verifyCore (apiKey : Option String) (result : GenOutcome) : CoreResult :=
  if jsTruthy apiKey then
    match result with
    | .success _ => { status := 200, body := .validBody, usedKey := apiKey, calls := [verifyCall] }
    | .failure e =>
      { status := 400, body := .invalidBody e.message, usedKey := apiKey, calls := [verifyCall] }
  else
    { status := 400, body := .errorBody "API Key is required", usedKey := none, calls := [] }

/-- A rewrite request as the handlers read it: HTTP method, the forwarded
header, the socket address, and the body fields `text` and `apiKey`. -/
structure RewriteReq where
  method : String
  forwarded : HeaderVal
  socketAddr : Option String
  text : Option String
  apiKey : Option String
deriving DecidableEq, Repr

/-- A verify request as the handlers read it. -/
structure VerifyReq where
  method : String
  forwarded : HeaderVal
  socketAddr : Option String
  apiKey : Option String
deriving DecidableEq, Repr

/-- The full observable outcome of one handler invocation: response
status and body, whether the request passed the rate gate, the key the
rate state was bucketed under, the record stored under that key
afterwards (`stored` unchanged on rejection), the credential handed to
the SDK, and the upstream calls issued. -/
structure HandlerResult where
  status : Nat
  body : RespBody
  allowed : Bool
  clientKey : ClientKey
  record : Option RateRecord
  usedKey : Option String
  calls : List GenCall
deriving DecidableEq, Repr

/-- The serverless rewrite handler (api/rewrite.ts): rate gate first
(keyed by the raw forwarded header), then the method check, then
`rewriteCore`. `stored` is the record currently held for this request's
client key; `now` is `Date.now()`. -/
def rewriteHandler (req : RewriteReq) (envKey : Option String) (gen : GenEnv)
    (now : Int) (stored : Option RateRecord) : HandlerResult :=
  let ck := serverlessRewriteClientId req.forwarded
  let record := freshOrReset stored now
  if record.count ≥ MAX_REQUESTS then
    { status := 429, body := .errorBody "Too many requests. Please try again later.",
      allowed := false, clientKey := ck, record := stored, usedKey := none, calls := [] }
  else
    let record : RateRecord := { count := record.count + 1, lastReset := record.lastReset }
    if req.method ≠ "POST" then
      { status := 405, body := .errorBody "Method Not Allowed", allowed := true,
        clientKey := ck, record := some record, usedKey := none, calls := [] }
    else
      let c := rewriteCore req.text req.apiKey envKey gen
      { status := c.status, body := c.body, allowed := true, clientKey := ck,
        record := some record, usedKey := c.usedKey, calls := c.calls }

/-- The Express `/api/rewrite` route behind the shared rate-limiter
middleware: gate keyed by `expressClientId`, no method branch (the router
itself only matches POST), then the same rewrite logic. Only meaningful
for POST requests. -/
def expressRewriteRoute (req : RewriteReq) (envKey : Option String) (gen : GenEnv)
    (now : Int) (stored : Option RateRecord) : HandlerResult :=
  let ck := ClientKey.strKey (expressClientId req.forwarded req.socketAddr)
  let record := freshOrReset stored now
  if record.count ≥ MAX_REQUESTS then
    { status := 429, body := .errorBody "Too many requests. Please try again later.",
      allowed := false, clientKey := ck, record := stored, usedKey := none, calls := [] }
  else
    let record : RateRecord := { count := record.count + 1, lastReset := record.lastReset }
    let c := rewriteCore req.text req.apiKey envKey gen
    { status := c.status, body := c.body, allowed := true, clientKey := ck,
      record := some record, usedKey := c.usedKey, calls := c.calls }

/-- The Express `/api/verify` route behind the same shared rate-limiter
middleware. -/
def expressVerifyRoute (req : VerifyReq) (result : GenOutcome)
    (now : Int) (stored : Option RateRecord) : HandlerResult :=
  let ck := ClientKey.strKey (expressClientId req.forwarded req.socketAddr)
  let record := freshOrReset stored now
  if record.count ≥ MAX_REQUESTS then
    { status := 429, body := .errorBody "Too many requests. Please try again later.",
      allowed := false, clientKey := ck, record := stored, usedKey := none, calls := [] }
  else
    let record : RateRecord := { count := record.count + 1, lastReset := record.lastReset }
    let c := verifyCore req.apiKey result
    { status := c.status, body := c.body, allowed := true, clientKey := ck,
      record := some record, usedKey := c.usedKey, calls := c.calls }

/-- The serverless verify handler variant that itself rate-limits
(keyed by `serverlessVerifyClientId`), then checks the method, then runs
`verifyCore`. -/
def serverlessVerifyGated (req : VerifyReq) (result : GenOutcome)
    (now : Int) (stored : Option RateRecord) : HandlerResult :=
  let ck := ClientKey.strKey (serverlessVerifyClientId req.forwarded)
  let record := freshOrReset stored now
  if record.count ≥ MAX_REQUESTS then
    { status := 429, body := .errorBody "Too many requests. Please try again later.",
      allowed := false, clientKey := ck, record := stored, usedKey := none, calls := [] }
  else
    let record : RateRecord := { count := record.count + 1, lastReset := record.lastReset }
    if req.method ≠ "POST" then
      { status := 405, body := .errorBody "Method Not Allowed", allowed := true,
        clientKey := ck, record := some record, usedKey := none, calls := [] }
    else
      let c := verifyCore req.apiKey result
      { status := c.status, body := c.body, allowed := true, clientKey := ck,
        record := some record, usedKey := c.usedKey, calls := c.calls }

/-- The serverless verify handler variant without any rate limiting:
method check, then `verifyCore`. -/
def serverlessVerifyNoGate (req : VerifyReq) (result : GenOutcome) : CoreResult :=
  if req.method ≠ "POST" then
    { status := 405, body := .errorBody "Method Not Allowed", usedKey := none, calls := [] }
  else
    verifyCore req.apiKey result

example : strIncludes "quota RESOURCE_EXHAUSTED hit" "RESOURCE_EXHAUSTED" = true := by decide
example : strIncludes "some 4290 units" "429" = true := by decide
example : strIncludes "fine" "429" = false := by decide
example : isQuotaError { status := some 429, message := some "boom", errCode := none, errStatus := none, serialized := "x" } = true := by decide
example : isQuotaError { status := some 503, message := some "boom", errCode := none, errStatus := none, serialized := "x" } = false := by decide
example : rateStep 0 none = (true, some { count := 1, lastReset := 0 }) := by decide
example : rateStep 60001 (some { count := 20, lastReset := 0 }) = (true, some { count := 1, lastReset := 60001 }) := by decide
example : rateStep 60000 (some { count := 20, lastReset := 0 }) = (false, some { count := 20, lastReset := 0 }) := by decide

lemma rewriteHandler_gate (req : RewriteReq) (envKey : Option String) (gen : GenEnv)
    (now : Int) (stored : Option RateRecord) :
    (rewriteHandler req envKey gen now stored).allowed = (rateStep now stored).1 ∧
    (rewriteHandler req envKey gen now stored).record = (rateStep now stored).2 ∧
    ((rateStep now stored).1 = false →
      (rewriteHandler req envKey gen now stored).status = 429 ∧
      (rewriteHandler req envKey gen now stored).body =
        RespBody.errorBody "Too many requests. Please try again later.") := by
  unfold rewriteHandler rateStep
  by_cases h : (freshOrReset stored now).count ≥ MAX_REQUESTS
  · simp [h]
  · by_cases hm : req.method = "POST" <;> simp [h, hm]

lemma expressRewriteRoute_gate (req : RewriteReq) (envKey : Option String) (gen : GenEnv)
    (now : Int) (stored : Option RateRecord) :
    (expressRewriteRoute req envKey gen now stored).allowed = (rateStep now stored).1 ∧
    (expressRewriteRoute req envKey gen now stored).record = (rateStep now stored).2 ∧
    ((rateStep now stored).1 = false →
      (expressRewriteRoute req envKey gen now stored).status = 429 ∧
      (expressRewriteRoute req envKey gen now stored).body =
        RespBody.errorBody "Too many requests. Please try again later.") := by
  unfold expressRewriteRoute rateStep
  by_cases h : (freshOrReset stored now).count ≥ MAX_REQUESTS <;> simp [h]

lemma expressVerifyRoute_gate (req : VerifyReq) (result : GenOutcome)
    (now : Int) (stored : Option RateRecord) :
    (expressVerifyRoute req result now stored).allowed = (rateStep now stored).1 ∧
    (expressVerifyRoute req result now stored).record = (rateStep now stored).2 ∧
    ((rateStep now stored).1 = false →
      (expressVerifyRoute req result now stored).status = 429 ∧
      (expressVerifyRoute req result now stored).body =
        RespBody.errorBody "Too many requests. Please try again later.") := by
  unfold expressVerifyRoute rateStep
  by_cases h : (freshOrReset stored now).count ≥ MAX_REQUESTS <;> simp [h]

lemma runRate_inWindow (ts : List Int) (c : Nat) (t0 : Int)
    (hc : c ≤ 20) (hw : ∀ t ∈ ts, t - t0 ≤ WINDOW_MS) :
    runRate ts (some { count := c, lastReset := t0 }) =
      ((List.range ts.length).map (fun i => decide (c + i < 20)),
       some { count := min (c + ts.length) 20, lastReset := t0 }) := by
  induction ts generalizing c with
  | nil =>
    simp only [runRate, List.length_nil, List.range_zero, List.map_nil]
    have : min (c + 0) 20 = c := by omega
    rw [this]
  | cons t ts ih =>
    have hnw : ¬ (t - t0 > WINDOW_MS) := by
      have := hw t (by simp)
      omega
    have hwtail : ∀ u ∈ ts, u - t0 ≤ WINDOW_MS := fun u hu => hw u (by simp [hu])
    by_cases hlt : c < 20
    · have h1 : ¬ (c ≥ MAX_REQUESTS) := by simp only [MAX_REQUESTS]; omega
      have hstep : rateStep t (some { count := c, lastReset := t0 }) =
          (true, some { count := c + 1, lastReset := t0 }) := by
        simp [rateStep, freshOrReset, hnw, h1]
      simp only [runRate, hstep]
      rw [ih (c + 1) (by omega) hwtail]
      simp only [List.length_cons, List.range_succ_eq_map, List.map_cons, List.map_map]
      refine Prod.ext ?_ ?_
      · simp only
        refine List.cons_eq_cons.mpr ⟨?_, ?_⟩
        · simp [hlt]
        · refine List.map_congr_left (fun i _ => ?_)
          simp only [Function.comp]
          exact decide_eq_decide.mpr (by omega)
      · simp only
        have : c + 1 + ts.length = c + (ts.length + 1) := by omega
        rw [this]
    · have h1 : (freshOrReset (some { count := c, lastReset := t0 }) t).count ≥ MAX_REQUESTS := by
        simp only [freshOrReset, if_neg hnw, MAX_REQUESTS]
        omega
      have hstep : rateStep t (some { count := c, lastReset := t0 }) =
          (false, some { count := c, lastReset := t0 }) := by
        simp [rateStep, h1]
      simp only [runRate, hstep]
      rw [ih c hc hwtail]
      simp only [List.length_cons, List.range_succ_eq_map, List.map_cons, List.map_map]
      refine Prod.ext ?_ ?_
      · simp only
        refine List.cons_eq_cons.mpr ⟨?_, ?_⟩
        · simp; omega
        · refine List.map_congr_left (fun i _ => ?_)
          simp only [Function.comp]
          exact decide_eq_decide.mpr (by omega)
      · simp only
        have : min (c + ts.length) 20 = min (c + (ts.length + 1)) 20 := by omega
        rw [this]

/-- C2: a primary-model failure is classified as quota exhaustion exactly
when its status is 429, or its message contains "429" or
"RESOURCE_EXHAUSTED", or its nested error code is 429 or nested status is
"RESOURCE_EXHAUSTED", or the serialized error object contains
"RESOURCE_EXHAUSTED"; in particular an error carrying a 429 status
together with any unrelated message text is still classified as quota
exhaustion. -/
theorem c2_quota_classification :
    (∀ e : UpstreamError,
      isQuotaError e = true ↔
        (e.status = some 429 ∨
         (∃ m, e.message = some m ∧
            (strIncludes m "429" = true ∨ strIncludes m "RESOURCE_EXHAUSTED" = true)) ∨
         e.errCode = some 429 ∨
         e.errStatus = some "RESOURCE_EXHAUSTED" ∨
         strIncludes e.serialized "RESOURCE_EXHAUSTED" = true)) ∧
    (∀ e : UpstreamError, e.status = some 429 → isQuotaError e = true) := by
  constructor
  · rintro ⟨st, msg, ec, es, ser⟩
    cases msg <;>
      simp [isQuotaError, Bool.or_eq_true, beq_iff_eq] <;> tauto
  · rintro ⟨st, msg, ec, es, ser⟩ h
    cases msg <;> simp_all [isQuotaError, beq_iff_eq]

/-- Witness for C2: an error with status 429 and an unrelated message is
classified as quota exhaustion. -/
theorem c2_quota_classification_witness :
    isQuotaError { status := some 429, message := some "unrelated message text",
                   errCode := none, errStatus := none, serialized := "x" } = true :=
  c2_quota_classification.2 _ rfl

/-- C3: for one client, within a single 60000 ms window the first 20
requests are admitted and the 21st and later are rejected; a rejected
request leaves the stored record unchanged; and the rewrite handler, the
Express rewrite route and the Express verify route all decide admission by
this same rate step, answering 429 with the rate-limit error body on
rejection regardless of operation type. -/
theorem c3_rate_limit_window (t0 : Int) (ts : List Int)
    (hw : ∀ t ∈ ts, t - t0 ≤ WINDOW_MS) :
    (runRate (t0 :: ts) none =
      ((List.range (ts.length + 1)).map (fun i => decide (i < 20)),
       some { count := min (ts.length + 1) 20, lastReset := t0 })) ∧
    (∀ now stored, (rateStep now stored).1 = false → (rateStep now stored).2 = stored) ∧
    (∀ req envKey gen now stored,
      (rewriteHandler req envKey gen now stored).allowed = (rateStep now stored).1 ∧
      (rewriteHandler req envKey gen now stored).record = (rateStep now stored).2 ∧
      ((rateStep now stored).1 = false →
        (rewriteHandler req envKey gen now stored).status = 429 ∧
        (rewriteHandler req envKey gen now stored).body =
          RespBody.errorBody "Too many requests. Please try again later.")) ∧
    (∀ req envKey gen now stored,
      (expressRewriteRoute req envKey gen now stored).allowed = (rateStep now stored).1 ∧
      (expressRewriteRoute req envKey gen now stored).record = (rateStep now stored).2 ∧
      ((rateStep now stored).1 = false →
        (expressRewriteRoute req envKey gen now stored).status = 429 ∧
        (expressRewriteRoute req envKey gen now stored).body =
          RespBody.errorBody "Too many requests. Please try again later.")) ∧
    (∀ req result now stored,
      (expressVerifyRoute req result now stored).allowed = (rateStep now stored).1 ∧
      (expressVerifyRoute req result now stored).record = (rateStep now stored).2 ∧
      ((rateStep now stored).1 = false →
        (expressVerifyRoute req result now stored).status = 429 ∧
        (expressVerifyRoute req result now stored).body =
          RespBody.errorBody "Too many requests. Please try again later.")) := by
  refine ⟨?_, ?_, fun req envKey gen now stored => rewriteHandler_gate req envKey gen now stored,
    fun req envKey gen now stored => expressRewriteRoute_gate req envKey gen now stored,
    fun req result now stored => expressVerifyRoute_gate req result now stored⟩
  · have hstep : rateStep t0 none = (true, some { count := 1, lastReset := t0 }) := by
      simp [rateStep, freshOrReset, MAX_REQUESTS]
    simp only [runRate, hstep]
    rw [runRate_inWindow ts 1 t0 (by omega) hw]
    simp only [List.range_succ_eq_map, List.map_cons, List.map_map]
    refine Prod.ext ?_ ?_
    · simp only
      refine List.cons_eq_cons.mpr ⟨by simp, ?_⟩
      refine List.map_congr_left (fun i _ => ?_)
      simp only [Function.comp]
      exact decide_eq_decide.mpr (by omega)
    · simp only
      have : 1 + ts.length = ts.length + 1 := by omega
      rw [this]
  · intro now stored h
    unfold rateStep at h ⊢
    by_cases hge : (freshOrReset stored now).count ≥ MAX_REQUESTS <;> simp_all

/-- Witness for C3: 21 requests at time 0 from a fresh client — the first
20 admitted, the 21st rejected, final stored count 20. -/
theorem c3_rate_limit_window_witness :
    runRate (0 :: List.replicate 20 (0 : Int)) none =
      ((List.range 21).map (fun i => decide (i < 20)),
       some { count := 20, lastReset := 0 }) := by
  have h := (c3_rate_limit_window 0 (List.replicate 20 0)
    (fun t ht => by rw [List.eq_of_mem_replicate ht]; decide)).1
  rw [h]
  rfl

/-- C4: whenever a request arrives more than 60000 ms after the stored
record's window start, or no record exists, the count is reset and the
request admitted with stored count 1 and window start equal to the current
time — in the rate step and in each rate-limited handler. -/
theorem c4_window_reset (stored : Option RateRecord) (now : Int)
    (req : RewriteReq) (envKey : Option String) (gen : GenEnv)
    (vreq : VerifyReq) (vres : GenOutcome)
    (h : stored = none ∨ ∃ r, stored = some r ∧ now - r.lastReset > WINDOW_MS) :
    rateStep now stored = (true, some { count := 1, lastReset := now }) ∧
    (rewriteHandler req envKey gen now stored).allowed = true ∧
    (rewriteHandler req envKey gen now stored).record = some { count := 1, lastReset := now } ∧
    (expressRewriteRoute req envKey gen now stored).allowed = true ∧
    (expressRewriteRoute req envKey gen now stored).record = some { count := 1, lastReset := now } ∧
    (expressVerifyRoute vreq vres now stored).allowed = true ∧
    (expressVerifyRoute vreq vres now stored).record = some { count := 1, lastReset := now } := by
  have hstep : rateStep now stored = (true, some { count := 1, lastReset := now }) := by
    rcases h with h | ⟨r, rfl, hr⟩
    · subst h
      simp [rateStep, freshOrReset, MAX_REQUESTS]
    · simp [rateStep, freshOrReset, hr, MAX_REQUESTS]
  obtain ⟨ha1, hr1, -⟩ := rewriteHandler_gate req envKey gen now stored
  obtain ⟨ha2, hr2, -⟩ := expressRewriteRoute_gate req envKey gen now stored
  obtain ⟨ha3, hr3, -⟩ := expressVerifyRoute_gate vreq vres now stored
  rw [hstep] at ha1 hr1 ha2 hr2 ha3 hr3
  exact ⟨hstep, ha1, hr1, ha2, hr2, ha3, hr3⟩

/-- Witness for C4: a client exhausted at window start 0 issues a request
at time 60001 and is admitted with stored count 1. -/
theorem c4_window_reset_witness :
    rateStep 60001 (some { count := 20, lastReset := 0 }) =
      (true, some { count := 1, lastReset := 60001 }) :=
  (c4_window_reset (some { count := 20, lastReset := 0 }) 60001
    { method := "POST", forwarded := .str "a", socketAddr := none,
      text := some "x", apiKey := some "k" }
    none { proResult := .success "t", flashResult := .success "u" }
    { method := "POST", forwarded := .str "a", socketAddr := none, apiKey := some "k" }
    (.success "v")
    (Or.inr ⟨{ count := 20, lastReset := 0 }, rfl, by decide⟩)).1

lemma rewriteHandler_core (req : RewriteReq) (envKey : Option String) (gen : GenEnv)
    (now : Int) (stored : Option RateRecord)
    (hadm : (freshOrReset stored now).count < MAX_REQUESTS)
    (hm : req.method = "POST") :
    (rewriteHandler req envKey gen now stored).status =
      (rewriteCore req.text req.apiKey envKey gen).status ∧
    (rewriteHandler req envKey gen now stored).body =
      (rewriteCore req.text req.apiKey envKey gen).body ∧
    (rewriteHandler req envKey gen now stored).usedKey =
      (rewriteCore req.text req.apiKey envKey gen).usedKey ∧
    (rewriteHandler req envKey gen now stored).calls =
      (rewriteCore req.text req.apiKey envKey gen).calls := by
  have hnot : ¬ ((freshOrReset stored now).count ≥ MAX_REQUESTS) := Nat.not_le.mpr hadm
  simp [rewriteHandler, hnot, hm]

lemma expressVerifyRoute_core (req : VerifyReq) (result : GenOutcome)
    (now : Int) (stored : Option RateRecord)
    (hadm : (freshOrReset stored now).count < MAX_REQUESTS) :
    (expressVerifyRoute req result now stored).status = (verifyCore req.apiKey result).status ∧
    (expressVerifyRoute req result now stored).body = (verifyCore req.apiKey result).body ∧
    (expressVerifyRoute req result now stored).usedKey = (verifyCore req.apiKey result).usedKey ∧
    (expressVerifyRoute req result now stored).calls = (verifyCore req.apiKey result).calls := by
  have hnot : ¬ ((freshOrReset stored now).count ≥ MAX_REQUESTS) := Nat.not_le.mpr hadm
  simp [expressVerifyRoute, hnot]

/-- C1: in the rewrite flow, behind an admitted POST with a resolvable
credential, the flash model is invoked if and only if the pro attempt
fails with a quota classification, and then exactly once; the flash
attempt's outcome is final and carries its own status, and every
non-quota pro failure propagates unchanged with no flash invocation. -/
theorem c1_fallback_orchestration (req : RewriteReq) (envKey : Option String)
    (gen : GenEnv) (now : Int) (stored : Option RateRecord)
    (hadm : (freshOrReset stored now).count < MAX_REQUESTS)
    (hm : req.method = "POST")
    (hk : jsTruthy (resolveKey req.apiKey envKey) = true) :
    (∀ t, gen.proResult = GenOutcome.success t →
      (rewriteHandler req envKey gen now stored).calls = [proCall req.text] ∧
      (rewriteHandler req envKey gen now stored).status = 200 ∧
      (rewriteHandler req envKey gen now stored).body = RespBody.textBody t) ∧
    (∀ e, gen.proResult = GenOutcome.failure e → isQuotaError e = false →
      (rewriteHandler req envKey gen now stored).calls = [proCall req.text] ∧
      (rewriteHandler req envKey gen now stored).status = errStatusOf e ∧
      (rewriteHandler req envKey gen now stored).body = RespBody.errorBody (errMessageOf e)) ∧
    (∀ e, gen.proResult = GenOutcome.failure e → isQuotaError e = true →
      (rewriteHandler req envKey gen now stored).calls = [proCall req.text, flashCall req.text] ∧
      (∀ t, gen.flashResult = GenOutcome.success t →
        (rewriteHandler req envKey gen now stored).status = 200 ∧
        (rewriteHandler req envKey gen now stored).body = RespBody.textBody t) ∧
      (∀ e2, gen.flashResult = GenOutcome.failure e2 →
        (rewriteHandler req envKey gen now stored).status = errStatusOf e2 ∧
        (rewriteHandler req envKey gen now stored).body = RespBody.errorBody (errMessageOf e2))) := by
  obtain ⟨hs, hb, hu, hc⟩ := rewriteHandler_core req envKey gen now stored hadm hm
  obtain ⟨pro, flash⟩ := gen
  refine ⟨?_, ?_, ?_⟩
  · rintro t rfl
    rw [hc, hs, hb]
    simp [rewriteCore, hk]
  · rintro e rfl hq
    rw [hc, hs, hb]
    simp [rewriteCore, hk, hq]
  · rintro e rfl hq
    refine ⟨?_, ?_, ?_⟩
    · rw [hc]
      cases flash <;> simp [rewriteCore, hk, hq]
    · rintro t rfl
      rw [hs, hb]
      simp [rewriteCore, hk, hq]
    · rintro e2 rfl
      rw [hs, hb]
      simp [rewriteCore, hk, hq]

/-- Witness for C1: a pro failure with status 429 triggers exactly one
flash call whose success is returned as the 200 response. -/
theorem c1_fallback_orchestration_witness :
    (rewriteHandler { method := "POST", forwarded := .str "a", socketAddr := none, text := some "x", apiKey := some "k" } none { proResult := .failure { status := some 429, message := none, errCode := none, errStatus := none, serialized := "e" }, flashResult := .success "fb" } 0 none).calls = [proCall (some "x"), flashCall (some "x")] ∧
    (rewriteHandler { method := "POST", forwarded := .str "a", socketAddr := none, text := some "x", apiKey := some "k" } none { proResult := .failure { status := some 429, message := none, errCode := none, errStatus := none, serialized := "e" }, flashResult := .success "fb" } 0 none).status = 200 := by
  have h := (c1_fallback_orchestration
    { method := "POST", forwarded := .str "a", socketAddr := none, text := some "x", apiKey := some "k" }
    none
    { proResult := .failure { status := some 429, message := none, errCode := none, errStatus := none, serialized := "e" }, flashResult := .success "fb" }
    0 none (by decide) rfl (by decide)).2.2
    { status := some 429, message := none, errCode := none, errStatus := none, serialized := "e" }
    rfl (by decide)
  exact ⟨h.1, (h.2.1 "fb" rfl).1⟩

lemma rewriteCore_usedKey (text apiKey envKey : Option String) (gen : GenEnv)
    (hk : jsTruthy (resolveKey apiKey envKey) = true) :
    (rewriteCore text apiKey envKey gen).usedKey = resolveKey apiKey envKey := by
  obtain ⟨pro, flash⟩ := gen
  cases pro with
  | success t => simp [rewriteCore, hk]
  | failure e =>
    by_cases hq : isQuotaError e <;> cases flash <;> simp [rewriteCore, hk, hq]

/-- C5 fails as stated: the handler does not trim the request key. With
apiKey a single space and a configured default "K", the handler hands the
untrimmed space to the SDK, while the claimed resolution (trim, then
fall back when empty) would pick "K". -/
theorem c5_counterexample :
    (rewriteHandler { method := "POST", forwarded := .str "a", socketAddr := none, text := some "x", apiKey := some " " } (some "K") { proResult := .success "y", flashResult := .success "z" } 0 none).usedKey = some " " ∧
    resolveKeySpec (some " ") (some "K") = some "K" ∧
    (" " : String) ≠ "K" := by decide

/-- C5 (amended): the request key is used as-is, untrimmed, whenever it
is a non-empty string; otherwise the process default is used when it is a
non-empty string; otherwise the request fails with 401, the instructing
message, and no upstream call. -/
theorem c5_credential_resolution (req : RewriteReq) (envKey : Option String)
    (gen : GenEnv) (now : Int) (stored : Option RateRecord)
    (hadm : (freshOrReset stored now).count < MAX_REQUESTS)
    (hm : req.method = "POST") :
    (jsTruthy req.apiKey = true →
      (rewriteHandler req envKey gen now stored).usedKey = req.apiKey) ∧
    (jsTruthy req.apiKey = false → jsTruthy envKey = true →
      (rewriteHandler req envKey gen now stored).usedKey = envKey) ∧
    (jsTruthy req.apiKey = false → jsTruthy envKey = false →
      (rewriteHandler req envKey gen now stored).status = 401 ∧
      (rewriteHandler req envKey gen now stored).body =
        RespBody.errorBody "API Key is missing. Please configure it in Vercel or provide one." ∧
      (rewriteHandler req envKey gen now stored).calls = [] ∧
      (rewriteHandler req envKey gen now stored).usedKey = none) := by
  obtain ⟨hs, hb, hu, hc⟩ := rewriteHandler_core req envKey gen now stored hadm hm
  refine ⟨fun h1 => ?_, fun h1 h2 => ?_, fun h1 h2 => ?_⟩
  · have hr : resolveKey req.apiKey envKey = req.apiKey := by simp [resolveKey, jsOr, h1]
    rw [hu, rewriteCore_usedKey _ _ _ _ (by rw [hr]; exact h1), hr]
  · have hr : resolveKey req.apiKey envKey = envKey := by simp [resolveKey, jsOr, h1]
    rw [hu, rewriteCore_usedKey _ _ _ _ (by rw [hr]; exact h2), hr]
  · have hr : resolveKey req.apiKey envKey = envKey := by simp [resolveKey, jsOr, h1]
    have hkf : jsTruthy (resolveKey req.apiKey envKey) = false := by rw [hr]; exact h2
    rw [hs, hb, hc, hu]
    simp [rewriteCore, hkf]

/-- Witness for C5 (amended): with no request key and no default, the
handler answers 401 with the instructing message and makes no upstream
call. -/
theorem c5_credential_resolution_witness :
    (rewriteHandler { method := "POST", forwarded := .str "a", socketAddr := none, text := some "x", apiKey := none } none { proResult := .success "y", flashResult := .success "z" } 0 none).status = 401 ∧
    (rewriteHandler { method := "POST", forwarded := .str "a", socketAddr := none, text := some "x", apiKey := none } none { proResult := .success "y", flashResult := .success "z" } 0 none).calls = [] := by
  have h := (c5_credential_resolution
    { method := "POST", forwarded := .str "a", socketAddr := none,
      text := some "x", apiKey := none } none
    { proResult := .success "y", flashResult := .success "z" } 0 none
    (by decide) rfl).2.2 (by decide) (by decide)
  exact ⟨h.1, h.2.2.1⟩

/-- C6: the verify flow never consults a server default (`verifyCore`
takes no default credential at all): a falsy request key yields 400 with
"API Key is required" and no upstream call; a truthy key yields exactly
one flash-model call with the fixed prompt "Hi" and no system
instruction, upstream success yields 200 with the valid body, and any
upstream failure yields 400 with the invalid body carrying the error
message; the Express route behind an admitting gate and the ungated
serverless handler on a POST both answer exactly as `verifyCore`. -/
theorem c6_verify_flow (k : Option String) (res : GenOutcome)
    (vreq : VerifyReq) (now : Int) (stored : Option RateRecord) :
    (verifyCall = { model := flashModel, prompt := some "Hi", withSystemInstruction := false }) ∧
    (jsTruthy k = false →
      verifyCore k res =
        { status := 400, body := .errorBody "API Key is required", usedKey := none, calls := [] }) ∧
    (jsTruthy k = true →
      (verifyCore k res).calls = [verifyCall] ∧
      (∀ t, res = GenOutcome.success t →
        verifyCore k res =
          { status := 200, body := .validBody, usedKey := k, calls := [verifyCall] }) ∧
      (∀ e, res = GenOutcome.failure e →
        verifyCore k res =
          { status := 400, body := .invalidBody e.message, usedKey := k, calls := [verifyCall] })) ∧
    ((freshOrReset stored now).count < MAX_REQUESTS →
      (expressVerifyRoute vreq res now stored).status = (verifyCore vreq.apiKey res).status ∧
      (expressVerifyRoute vreq res now stored).body = (verifyCore vreq.apiKey res).body ∧
      (expressVerifyRoute vreq res now stored).calls = (verifyCore vreq.apiKey res).calls) ∧
    (vreq.method = "POST" →
      serverlessVerifyNoGate vreq res = verifyCore vreq.apiKey res) := by
  refine ⟨rfl, fun hk => ?_, fun hk => ⟨?_, ?_, ?_⟩, fun hadm => ?_, fun hm => ?_⟩
  · cases res <;> simp [verifyCore, hk]
  · cases res <;> simp [verifyCore, hk]
  · rintro t rfl
    simp [verifyCore, hk]
  · rintro e rfl
    simp [verifyCore, hk]
  · obtain ⟨hs, hb, hu, hc⟩ := expressVerifyRoute_core vreq res now stored hadm
    exact ⟨hs, hb, hc⟩
  · simp [serverlessVerifyNoGate, hm]

/-- Witness for C6: a truthy key with an upstream success yields the
valid body after exactly one probe call. -/
theorem c6_verify_flow_witness :
    verifyCore (some "k") (.success "ok") =
      { status := 200, body := .validBody, usedKey := some "k", calls := [verifyCall] } :=
  ((c6_verify_flow (some "k") (.success "ok")
      { method := "POST", forwarded := .str "a", socketAddr := none, apiKey := some "k" }
      0 none).2.2.1 (by decide)).2.1 "ok" rfl

/-- C7 fails as stated on the serverless rewrite handler: for a request
with no forwarded header and socket address "1.2.3.4", the handler
buckets rate state under "unknown", while the claimed derivation yields
the socket address. -/
theorem c7_counterexample :
    (rewriteHandler { method := "POST", forwarded := .absent, socketAddr := some "1.2.3.4", text := some "x", apiKey := some "k" } none { proResult := .success "y", flashResult := .success "z" } 0 none).clientKey = ClientKey.strKey "unknown" ∧
    claimedClientId .absent (some "1.2.3.4") = "1.2.3.4" ∧
    ("unknown" : String) ≠ "1.2.3.4" := by decide

/-- C7 (amended): the Express middleware derives the identifier as the
first truthy header value, else the truthy socket address, else
"unknown", agreeing with the claimed derivation whenever the present
values are non-empty; the serverless verify handler derives the same but
with no socket fallback; the serverless rewrite handler uses the raw
header value with neither first-element extraction nor socket fallback;
on a non-empty string header all derivations agree. -/
theorem c7_client_id_derivations :
    (∀ hv sock, (∀ s, firstVal hv = some s → s.isEmpty = false) →
      (∀ a, sock = some a → a.isEmpty = false) →
      expressClientId hv sock = claimedClientId hv sock) ∧
    (∀ hv, serverlessVerifyClientId hv = expressClientId hv none) ∧
    (∀ s, s.isEmpty = false → ∀ sock,
      expressClientId (.str s) sock = s ∧
      serverlessVerifyClientId (.str s) = s ∧
      serverlessRewriteClientId (.str s) = .strKey s) ∧
    (serverlessRewriteClientId .absent = .strKey "unknown") ∧
    (∀ l, serverlessRewriteClientId (.arr l) = .arrKey l) := by
  refine ⟨?_, ?_, ?_, rfl, fun l => rfl⟩
  · intro hv sock h1 h2
    cases hv with
    | absent =>
      cases sock with
      | none => rfl
      | some a =>
        have ha := h2 a rfl
        simp [expressClientId, claimedClientId, firstVal, jsOr, jsTruthy, ha]
    | str s =>
      have hs := h1 s rfl
      simp [expressClientId, claimedClientId, firstVal, jsOr, jsTruthy, hs]
    | arr l =>
      cases l with
      | nil =>
        cases sock with
        | none => rfl
        | some a =>
          have ha := h2 a rfl
          simp [expressClientId, claimedClientId, firstVal, jsOr, jsTruthy, ha]
      | cons h t =>
        have hh := h1 h (by simp [firstVal])
        simp [expressClientId, claimedClientId, firstVal, jsOr, jsTruthy, hh]
  · intro hv
    cases hv with
    | absent => rfl
    | str s =>
      by_cases hs : s.isEmpty <;>
        simp [serverlessVerifyClientId, expressClientId, firstVal, jsOr, jsTruthy, hs]
    | arr l =>
      cases l with
      | nil => rfl
      | cons h t =>
        by_cases hh : h.isEmpty <;>
          simp [serverlessVerifyClientId, expressClientId, firstVal, jsOr, jsTruthy, hh]
  · intro s hs sock
    refine ⟨?_, ?_, ?_⟩ <;>
      simp [expressClientId, serverlessVerifyClientId, serverlessRewriteClientId,
        firstVal, jsOr, jsTruthy, hs]

/-- Witness for C7 (amended): on a concrete request with header
"7.7.7.7" and socket "8.8.8.8", the Express derivation matches the
claimed derivation. -/
theorem c7_client_id_derivations_witness :
    expressClientId (.str "7.7.7.7") (some "8.8.8.8") =
      claimedClientId (.str "7.7.7.7") (some "8.8.8.8") :=
  c7_client_id_derivations.1 (.str "7.7.7.7") (some "8.8.8.8")
    (fun s h => by simp [firstVal] at h; rw [← h]; decide)
    (fun a h => by injection h with h; rw [← h]; decide)

/-- C8 fails as stated: on a request with no forwarded header and socket
address "9.9.9.9", the serverless rewrite handler and the Express
rewrite route bucket rate-limit state under different client keys, so
their rate-limit state effects differ. -/
theorem c8_counterexample :
    (rewriteHandler { method := "POST", forwarded := .absent, socketAddr := some "9.9.9.9", text := some "x", apiKey := some "k" } none { proResult := .success "t", flashResult := .success "u" } 0 none).clientKey ≠
    (expressRewriteRoute { method := "POST", forwarded := .absent, socketAddr := some "9.9.9.9", text := some "x", apiKey := some "k" } none { proResult := .success "t", flashResult := .success "u" } 0 none).clientKey := by
  decide

/-- C8 (amended): for POST rewrite requests whose forwarded header is a
non-empty plain string, the serverless handler and the Express route
produce identical results — status, body, admission, client key, stored
record, used credential and upstream calls — given the same stored
record and generation outcomes; the variants differ in client-identifier
derivation when the header is absent or an array, and in rate-limit
scope (the Express app shares one counter map across rewrite and verify,
while the serverless functions keep separate per-handler maps). -/
theorem c8_variant_equivalence (req : RewriteReq) (envKey : Option String)
    (gen : GenEnv) (now : Int) (stored : Option RateRecord)
    (hm : req.method = "POST") (s : String)
    (hf : req.forwarded = .str s) (hs : s.isEmpty = false) :
    rewriteHandler req envKey gen now stored = expressRewriteRoute req envKey gen now stored := by
  have hck : serverlessRewriteClientId req.forwarded =
      ClientKey.strKey (expressClientId req.forwarded req.socketAddr) := by
    rw [hf]
    simp [serverlessRewriteClientId, expressClientId, firstVal, jsOr, jsTruthy, hs]
  by_cases hge : (freshOrReset stored now).count ≥ MAX_REQUESTS <;>
    simp [rewriteHandler, expressRewriteRoute, hge, hm, hck]

/-- Witness for C8 (amended): a concrete POST with header "1.1.1.1" and
socket "2.2.2.2" evaluates identically through both variants. -/
theorem c8_variant_equivalence_witness :
    rewriteHandler { method := "POST", forwarded := .str "1.1.1.1", socketAddr := some "2.2.2.2", text := some "x", apiKey := some "k" } none { proResult := .success "t", flashResult := .success "u" } 0 none =
    expressRewriteRoute { method := "POST", forwarded := .str "1.1.1.1", socketAddr := some "2.2.2.2", text := some "x", apiKey := some "k" } none { proResult := .success "t", flashResult := .success "u" } 0 none :=
  c8_variant_equivalence _ _ _ _ _ rfl "1.1.1.1" rfl (by decide)

lemma rewriteCore_shape (text apiKey envKey : Option String) (gen : GenEnv) :
    isSuccessPayload (rewriteCore text apiKey envKey gen).body = true ∨
    hasErrorField (rewriteCore text apiKey envKey gen).body = true := by
  obtain ⟨pro, flash⟩ := gen
  cases pro with
  | success t =>
    by_cases hk : jsTruthy (resolveKey apiKey envKey) <;>
      simp [rewriteCore, hk, isSuccessPayload, hasErrorField]
  | failure e =>
    by_cases hk : jsTruthy (resolveKey apiKey envKey) <;>
      by_cases hq : isQuotaError e <;>
        cases flash <;> simp [rewriteCore, hk, hq, isSuccessPayload, hasErrorField]

lemma rewriteCore_200 (text apiKey envKey : Option String) (gen : GenEnv)
    (hpro : ∀ e, gen.proResult = GenOutcome.failure e → errStatusOf e ≠ 200)
    (hfl : ∀ e, gen.flashResult = GenOutcome.failure e → errStatusOf e ≠ 200) :
    (rewriteCore text apiKey envKey gen).status = 200 →
      ∃ t, (rewriteCore text apiKey envKey gen).body = RespBody.textBody t := by
  obtain ⟨pro, flash⟩ := gen
  cases pro with
  | success t =>
    by_cases hk : jsTruthy (resolveKey apiKey envKey) <;> simp [rewriteCore, hk]
  | failure e =>
    have he := hpro e rfl
    by_cases hk : jsTruthy (resolveKey apiKey envKey)
    · by_cases hq : isQuotaError e
      · cases flash with
        | success t => simp [rewriteCore, hk, hq]
        | failure e2 =>
          have he2 := hfl e2 rfl
          simp [rewriteCore, hk, hq, he2]
      · simp [rewriteCore, hk, hq, he]
    · simp [rewriteCore, hk]

lemma verifyCore_shape (k : Option String) (res : GenOutcome) :
    isSuccessPayload (verifyCore k res).body = true ∨
    hasErrorField (verifyCore k res).body = true ∨
    ((verifyCore k res).body = RespBody.invalidBody none ∧
     ∃ e, res = GenOutcome.failure e ∧ e.message = none) := by
  by_cases hk : jsTruthy k
  · cases res with
    | success t =>
      left
      simp [verifyCore, hk, isSuccessPayload]
    | failure e =>
      cases hm : e.message with
      | some m =>
        right; left
        simp [verifyCore, hk, hasErrorField, hm]
      | none =>
        right; right
        exact ⟨by simp [verifyCore, hk, hm], e, rfl, hm⟩
  · right; left
    simp [verifyCore, hk, hasErrorField]

/-- C9 fails as stated: a verify failure whose upstream error carries no
message serializes to `\x7b status: "invalid" \x7d` alone — neither a
successful payload nor a body with an `error` field. -/
theorem c9_counterexample :
    verifyCore (some "k") (.failure { status := none, message := none, errCode := none, errStatus := none, serialized := "boom" }) =
      { status := 400, body := .invalidBody none, usedKey := some "k", calls := [verifyCall] } ∧
    hasErrorField (.invalidBody none) = false ∧
    isSuccessPayload (.invalidBody none) = false := by decide

/-- C9 (amended): every rewrite response body is a successful payload or
carries an `error` field, and a 200 rewrite response carries a `text`
field provided no upstream failure reports a 200 status hint; every
verify response body is a successful payload, carries an `error` field,
or is the bare invalid body, the latter exactly when the upstream
failure has no message. -/
theorem c9_response_shapes :
    (∀ req envKey gen now stored,
      isSuccessPayload (rewriteHandler req envKey gen now stored).body = true ∨
      hasErrorField (rewriteHandler req envKey gen now stored).body = true) ∧
    (∀ req envKey gen now stored,
      (∀ e, gen.proResult = GenOutcome.failure e → errStatusOf e ≠ 200) →
      (∀ e, gen.flashResult = GenOutcome.failure e → errStatusOf e ≠ 200) →
      (rewriteHandler req envKey gen now stored).status = 200 →
        ∃ t, (rewriteHandler req envKey gen now stored).body = RespBody.textBody t) ∧
    (∀ k res,
      isSuccessPayload (verifyCore k res).body = true ∨
      hasErrorField (verifyCore k res).body = true ∨
      ((verifyCore k res).body = RespBody.invalidBody none ∧
       ∃ e, res = GenOutcome.failure e ∧ e.message = none)) ∧
    (∀ vreq res now stored,
      isSuccessPayload (expressVerifyRoute vreq res now stored).body = true ∨
      hasErrorField (expressVerifyRoute vreq res now stored).body = true ∨
      (expressVerifyRoute vreq res now stored).body = RespBody.invalidBody none) := by
  refine ⟨?_, ?_, verifyCore_shape, ?_⟩
  · intro req envKey gen now stored
    by_cases hge : (freshOrReset stored now).count ≥ MAX_REQUESTS
    · right
      simp [rewriteHandler, hge, hasErrorField]
    · by_cases hm : req.method = "POST"
      · obtain ⟨hs, hb, hu, hc⟩ :=
          rewriteHandler_core req envKey gen now stored (Nat.lt_of_not_le hge) hm
        rw [hb]
        exact rewriteCore_shape req.text req.apiKey envKey gen
      · right
        simp [rewriteHandler, hge, hm, hasErrorField]
  · intro req envKey gen now stored hpro hfl
    by_cases hge : (freshOrReset stored now).count ≥ MAX_REQUESTS
    · intro h200
      simp [rewriteHandler, hge] at h200
    · by_cases hm : req.method = "POST"
      · obtain ⟨hs, hb, hu, hc⟩ :=
          rewriteHandler_core req envKey gen now stored (Nat.lt_of_not_le hge) hm
        rw [hs, hb]
        exact rewriteCore_200 req.text req.apiKey envKey gen hpro hfl
      · intro h200
        simp [rewriteHandler, hge, hm] at h200
  · intro vreq res now stored
    by_cases hge : (freshOrReset stored now).count ≥ MAX_REQUESTS
    · right; left
      simp [expressVerifyRoute, hge, hasErrorField]
    · obtain ⟨hs, hb, hu, hc⟩ := expressVerifyRoute_core vreq res now stored (Nat.lt_of_not_le hge)
      rw [hb]
      rcases verifyCore_shape vreq.apiKey res with h | h | ⟨h, -⟩
      · exact Or.inl h
      · exact Or.inr (Or.inl h)
      · exact Or.inr (Or.inr h)

/-- Witness for C9 (amended): a concrete successful rewrite yields a
200 response whose body is the text payload. -/
theorem c9_response_shapes_witness :
    ∃ t, (rewriteHandler { method := "POST", forwarded := .str "a", socketAddr := none, text := some "x", apiKey := some "k" } none { proResult := .success "y", flashResult := .success "z" } 0 none).body = RespBody.textBody t :=
  c9_response_shapes.2.1
    { method := "POST", forwarded := .str "a", socketAddr := none, text := some "x", apiKey := some "k" }
    none { proResult := .success "y", flashResult := .success "z" } 0 none
    (fun e he => nomatch he) (fun e he => nomatch he) (by decide)

lemma runRate_fresh (t0 : Int) (ts : List Int) (hw : ∀ t ∈ ts, t - t0 ≤ WINDOW_MS) :
    runRate (t0 :: ts) none =
      (true :: (List.range ts.length).map (fun i => decide (1 + i < 20)),
       some { count := min (1 + ts.length) 20, lastReset := t0 }) := by
  have hstep : rateStep t0 none = (true, some { count := 1, lastReset := t0 }) := by
    simp [rateStep, freshOrReset, MAX_REQUESTS]
  simp only [runRate, hstep]
  rw [runRate_inWindow ts 1 t0 (by omega) hw]

/-- C10: the serverless rewrite handler increments and stores the
per-client count before the method check, so an admitted non-POST
request is answered 405 with the count already incremented; a
rate-limited request — whatever its method — is answered 429 with the
stored record untouched; 21 in-window requests from a fresh client
saturate the stored count at 20; and a client whose in-window count is
20 is rejected with 429 even on a well-formed POST. -/
theorem c10_method_check_after_rate (req : RewriteReq) (envKey : Option String)
    (gen : GenEnv) (now : Int) (stored : Option RateRecord) :
    ((freshOrReset stored now).count < MAX_REQUESTS → req.method ≠ "POST" →
      (rewriteHandler req envKey gen now stored).status = 405 ∧
      (rewriteHandler req envKey gen now stored).body = RespBody.errorBody "Method Not Allowed" ∧
      (rewriteHandler req envKey gen now stored).record =
        some { count := (freshOrReset stored now).count + 1,
               lastReset := (freshOrReset stored now).lastReset } ∧
      (rewriteHandler req envKey gen now stored).calls = []) ∧
    ((freshOrReset stored now).count ≥ MAX_REQUESTS →
      (rewriteHandler req envKey gen now stored).status = 429 ∧
      (rewriteHandler req envKey gen now stored).record = stored) ∧
    (∀ t0 ts, (∀ t ∈ ts, t - t0 ≤ WINDOW_MS) →
      (runRate (t0 :: ts) none).2 =
        some { count := min (1 + ts.length) 20, lastReset := t0 }) ∧
    (∀ now2 t0, now2 - t0 ≤ WINDOW_MS →
      (rewriteHandler req envKey gen now2 (some { count := 20, lastReset := t0 })).status = 429) := by
  refine ⟨fun hadm hm => ?_, fun hge => ?_, fun t0 ts hw => ?_, fun now2 t0 hwin => ?_⟩
  · have hnot : ¬ ((freshOrReset stored now).count ≥ MAX_REQUESTS) := Nat.not_le.mpr hadm
    simp [rewriteHandler, hnot, hm]
  · simp [rewriteHandler, hge]
  · rw [runRate_fresh t0 ts hw]
  · have hnr : ¬ (now2 - t0 > WINDOW_MS) := by omega
    simp [rewriteHandler, freshOrReset, hnr, MAX_REQUESTS]

/-- Witness for C10: an admitted GET is answered 405 with the count
stored as 1, and a POST from a client with in-window count 20 is
answered 429. -/
theorem c10_method_check_after_rate_witness :
    (rewriteHandler { method := "GET", forwarded := .str "a", socketAddr := none, text := some "x", apiKey := some "k" } none { proResult := .success "y", flashResult := .success "z" } 0 none).status = 405 ∧
    (rewriteHandler { method := "POST", forwarded := .str "a", socketAddr := none, text := some "x", apiKey := some "k" } none { proResult := .success "y", flashResult := .success "z" } 5 (some { count := 20, lastReset := 0 })).status = 429 := by
  constructor
  · exact ((c10_method_check_after_rate
      { method := "GET", forwarded := .str "a", socketAddr := none, text := some "x", apiKey := some "k" }
      none { proResult := .success "y", flashResult := .success "z" } 0 none).1
      (by decide) (by decide)).1
  · exact (c10_method_check_after_rate
      { method := "POST", forwarded := .str "a", socketAddr := none, text := some "x", apiKey := some "k" }
      none { proResult := .success "y", flashResult := .success "z" } 0 none).2.2.2
      5 0 (by decide)
